import Mathlib

/-!
Verification of the test-result summarization pipeline.

The pipeline reads a raw test-runner report (JSON) and writes a summary
report.  The main variant is `test_summary.py`; two further variants are
`create_output.py` (flat count keys, no status) and `generate_report.py`
(runs the tests itself and propagates the runner's exit code).

The embedding models JSON numbers as `Int` (a field absent from the raw
report is an `Option.none`), the module-level `SUMMARY_TEMPLATE` dict as an
explicit `TemplateState` threaded through each in-process invocation
(`SUMMARY_TEMPLATE.copy()` is a shallow copy, so the nested `tests` dict and
the `issues_detected` list are shared with the template and mutations to
them persist across invocations, while assigning `summary['status']` only
rebinds the key in the copy), and the process-level behaviour of
`test_summary.main` (file present / absent / unparseable) as a function on a
`LoadResult`.
-/

/-- The `summary` mapping of the raw pytest JSON report
(`report.get('summary', {})`): outcome-kind to count, each key optional. -/
structure RawSummary where
  total : Option Int
  passed : Option Int
  failed : Option Int
  skipped : Option Int
deriving DecidableEq, Repr

/-- A parsed raw report; `summary` is `none` when the top-level key is
absent (Python `report.get('summary', {})` then yields the empty mapping). -/
structure RawReport where
  summary : Option RawSummary
deriving DecidableEq, Repr

/-- The empty `summary` mapping `{}`: every lookup defaults. -/
def emptyRawSummary : RawSummary := ⟨none, none, none, none⟩

/-- One advisory record of `issues_detected` (keys `title`, `cause`, `fix`,
`status` in `test_summary.py`). -/
structure Issue where
  title : String
  cause : String
  fix : String
  status : String
deriving DecidableEq, Repr

/-- The nested `tests` dict of the summary (keys `total`, `passed`,
`failed`, `skipped`). -/
structure TestCounts where
  total : Int
  passed : Int
  failed : Int
  skipped : Int
deriving DecidableEq, Repr

/-- The summary dict written by `test_summary.main` (keys `project`,
`issues_detected`, `tests`, `status`). -/
structure SummaryOut where
  project : String
  issues_detected : List Issue
  tests : TestCounts
  status : String
deriving DecidableEq, Repr

/-- The mutable parts of the module-level `SUMMARY_TEMPLATE` dict.
`tests` and `issues_detected` are the objects shared with every shallow
copy; `status` is the template's own top-level entry (never reassigned on
the template itself, only on the copy). -/
structure TemplateState where
  issues_detected : List Issue
  tests : TestCounts
  status : String
deriving DecidableEq, Repr

/-- Initial value of `SUMMARY_TEMPLATE` at module load. -/
def SUMMARY_TEMPLATE : TemplateState :=
  { issues_detected := []
    tests := { total := 0, passed := 0, failed := 0, skipped := 0 }
    status := "unknown" }

/-- First static advisory entry appended on the success path. -/
def timestampIssue : Issue :=
  { title := "Post.timestamp default callable"
    cause := "Using datetime.utcnow() evaluated at import time resulted in identical timestamps; replaced with datetime.utcnow callable"
    fix := "Use default=datetime.utcnow (no parentheses) so the timestamp is evaluated per-insert"
    status := "fixed" }

/-- Second static advisory entry appended on the success path. -/
def foreignKeyIssue : Issue :=
  { title := "Post.user_id foreign key and relationship"
    cause := "Missing db.ForeignKey and backref prevented ORM from linking Post and User correctly"
    fix := "Set user_id = db.Column(db.Integer, db.ForeignKey(\x27user.id\x27), nullable=False) and add backref=\x27author\x27 on User.posts"
    status := "fixed" }

/-- The generic advisory entry appended on the failure path. -/
def needsAttentionIssue : Issue :=
  { title := "Review tests and model configuration"
    cause := "Some tests failed; inspect raw_results.json for tracebacks"
    fix := "Address failing assertions and re-run tests"
    status := "needs-attention" }

/-- The full static catalog included when the run succeeded. -/
def staticCatalog : List Issue := [timestampIssue, foreignKeyIssue]

/-- Count extraction, lines 33-36 of `test_summary.py`:
`report.get('summary', {}).get(k, 0)` for each of the four keys. -/
def getCounts (r : RawReport) : TestCounts :=
  let s := r.summary.getD emptyRawSummary
  { total := s.total.getD 0
    passed := s.passed.getD 0
    failed := s.failed.getD 0
    skipped := s.skipped.getD 0 }

/-- The advisory entries appended by one invocation, from the branch at
lines 44-65: the static catalog when `status == 'success'`, the single
generic entry otherwise. -/
def issuesFor (counts : TestCounts) : List Issue :=
  if counts.failed > 0 then [needsAttentionIssue] else staticCatalog

/-- One successful in-process invocation of `test_summary.main` on a parsed
report, lines 31-68.  `summary = SUMMARY_TEMPLATE.copy()` is shallow, so the
count assignments mutate the shared `tests` dict and the appends extend the
shared `issues_detected` list; `summary['status'] = ...` rebinds only the
copy's key.  Returns the template state after the call and the summary value
written to the output file. -/
def mainStep (tmpl : TemplateState) (r : RawReport) : TemplateState × SummaryOut :=
  let counts := getCounts r
  let st := if counts.failed > 0 then "failure" else "success"
  let newIssues := tmpl.issues_detected ++ issuesFor counts
  ( { issues_detected := newIssues, tests := counts, status := tmpl.status }
  , { project := "flask_blog_app", issues_detected := newIssues
      tests := counts, status := st } )

/-- What loading the input file can yield: the file is missing
(`FileNotFoundError`), present but unparseable (`json.JSONDecodeError`,
uncaught), or parsed into a report. -/
inductive LoadResult where
  | absent : LoadResult
  | malformed : LoadResult
  | ok : RawReport → LoadResult
deriving DecidableEq, Repr

/-- Observable outcome of one process run of `test_summary.py`: the exit
code and the summary written to `output.json` (`none` when nothing was
written). -/
structure ProcOutcome where
  exitCode : Nat
  written : Option SummaryOut
deriving DecidableEq, Repr

/-- Process-level behaviour of `test_summary.main`, lines 23-70: a missing
input file prints an error and calls `sys.exit(2)` before anything is
written; an unparseable file raises an uncaught exception (Python exits
with code 1) before anything is written; otherwise the summary is computed
and written and the process falls off the end of `main` (exit 0). -/
def test_summary_main (tmpl : TemplateState) (load : LoadResult) :
    TemplateState × ProcOutcome :=
  match load with
  | .absent => (tmpl, { exitCode := 2, written := none })
  | .malformed => (tmpl, { exitCode := 1, written := none })
  | .ok r =>
    let (tmpl2, out) := mainStep tmpl r
    (tmpl2, { exitCode := 0, written := some out })

/-- Process-level behaviour of `generate_report.py`, lines 143-154: after a
successful write of `output.json` the script returns `result.returncode`
(the test runner's exit code) and `sys.exit(main())` makes it the process
exit code.  Only the parts the exit-code claim depends on are modelled:
whether the report was written, and the exit code. -/
def generate_report_main (runnerExit : Nat) : Bool × Nat :=
  (true, runnerExit)

/-- Process-level exit of `run_test.py`, lines 80-81: `sys.exit(result.returncode)`
propagates the pytest exit code after the reports were generated. -/
def run_test_exit (runnerExit : Nat) : Nat := runnerExit

/-- A fragment of JSON: what `json.dump` serializes here (numbers, strings,
arrays, objects with ordered keys). -/
inductive Json where
  | num : Int → Json
  | str : String → Json
  | arr : List Json → Json
  | obj : List (String × Json) → Json
deriving Repr

/-- Top-level keys of a JSON object, in insertion order. -/
def Json.keys : Json → List String
  | .obj fields => fields.map Prod.fst
  | _ => []

/-- Whether a JSON object has a top-level key of the given name. -/
def Json.hasKey (j : Json) (k : String) : Bool :=
  match j with
  | .obj fields => fields.any (fun f => f.1 = k)
  | _ => false

/-- Look up a top-level key of a JSON object. -/
def Json.get (j : Json) (k : String) : Option Json :=
  match j with
  | .obj fields => (fields.find? (fun f => f.1 = k)).map Prod.snd
  | _ => none

/-- Serialization of one advisory dict, in the key order the appends of
`test_summary.py` construct it. -/
def issueToJson (i : Issue) : Json :=
  .obj [("title", .str i.title), ("cause", .str i.cause),
        ("fix", .str i.fix), ("status", .str i.status)]

/-- Serialization of the nested `tests` dict, key order from
`SUMMARY_TEMPLATE`. -/
def countsToJson (c : TestCounts) : Json :=
  .obj [("total", .num c.total), ("passed", .num c.passed),
        ("failed", .num c.failed), ("skipped", .num c.skipped)]

/-- Serialization of the summary dict `json.dump(summary, out, indent=2)`
writes: key order as in `SUMMARY_TEMPLATE` (`dict.copy()` preserves it). -/
def summaryToJson (s : SummaryOut) : Json :=
  .obj [("project", .str s.project),
        ("issues_detected", .arr (s.issues_detected.map issueToJson)),
        ("tests", countsToJson s.tests),
        ("status", .str s.status)]

/-- The summary dict `create_output.py` builds and writes (lines 3-9): flat
count keys only, in the source's order, each
`p.get('summary', {}).get(k, 0)`. -/
def create_output_summary (r : RawReport) : Json :=
  let s := r.summary.getD emptyRawSummary
  .obj [("tests_run", .num (s.total.getD 0)),
        ("tests_failed", .num (s.failed.getD 0)),
        ("tests_passed", .num (s.passed.getD 0)),
        ("tests_skipped", .num (s.skipped.getD 0))]

/-- Every count present in a raw summary mapping is non-negative (absent
keys impose nothing). -/
def RawReport.countsNonneg (r : RawReport) : Bool :=
  let s := r.summary.getD emptyRawSummary
  s.total.all (fun v => 0 ≤ v) && s.passed.all (fun v => 0 ≤ v) &&
    s.failed.all (fun v => 0 ≤ v) && s.skipped.all (fun v => 0 ≤ v)

/-- Whichever branch is taken, at least one advisory entry is appended. -/
lemma issuesFor_ne_nil (c : TestCounts) : issuesFor c ≠ [] := by
  unfold issuesFor
  split <;> simp [staticCatalog]

/-- The status an invocation writes is the branch result at lines 38-41. -/
lemma mainStep_status (tmpl : TemplateState) (r : RawReport) :
    (mainStep tmpl r).2.status =
      if (getCounts r).failed > 0 then "failure" else "success" := rfl

/-- The issues list an invocation writes extends the template's list. -/
lemma mainStep_out_issues (tmpl : TemplateState) (r : RawReport) :
    (mainStep tmpl r).2.issues_detected =
      tmpl.issues_detected ++ issuesFor (getCounts r) := rfl

/-- The template state after an invocation carries the same extended list. -/
lemma mainStep_state_issues (tmpl : TemplateState) (r : RawReport) :
    (mainStep tmpl r).1.issues_detected =
      tmpl.issues_detected ++ issuesFor (getCounts r) := rfl

/-- A non-negative optional count stays non-negative after defaulting. -/
lemma optGetD_nonneg (o : Option Int) (h : o.all (fun v => 0 ≤ v) = true) :
    0 ≤ o.getD 0 := by
  cases o with
  | none => simp
  | some v => simpa using h

/-- C1 counterexample: invoked on a non-existent input path (fresh module
state), the summarizer does not exit 0 and writes no output file, contrary
to the claimed local recovery. -/
theorem c1_absent_counterexample :
    ¬ ((test_summary_main SUMMARY_TEMPLATE .absent).2.exitCode = 0 ∧
       (test_summary_main SUMMARY_TEMPLATE .absent).2.written ≠ none) := by
  intro h
  exact absurd h.1 (by decide)

/-- C1 (amended): when the raw report file is absent the summarizer does
not recover locally: it prints an error and exits with code 2 without
writing any output summary (so no zero-count, status-unknown report is
produced), leaving the template untouched. -/
theorem c1_absent_is_fatal (tmpl : TemplateState) :
    (test_summary_main tmpl .absent).2.exitCode = 2 ∧
    (test_summary_main tmpl .absent).2.written = none ∧
    (test_summary_main tmpl .absent).1 = tmpl :=
  ⟨rfl, rfl, rfl⟩

/-- C2: for every parsed (non-absent) raw report whose extracted failed
count is non-negative, the output status is "failure" iff that count is
positive, "success" iff it is zero, and is never "unknown". -/
theorem c2_status_rule (tmpl : TemplateState) (r : RawReport)
    (h : 0 ≤ (getCounts r).failed) :
    ((mainStep tmpl r).2.status = "failure" ↔ 0 < (getCounts r).failed) ∧
    ((mainStep tmpl r).2.status = "success" ↔ (getCounts r).failed = 0) ∧
    (mainStep tmpl r).2.status ≠ "unknown" := by
  rw [mainStep_status]
  by_cases hf : (getCounts r).failed > 0
  · rw [if_pos hf]
    refine ⟨⟨fun _ => hf, fun _ => rfl⟩,
      ⟨fun hc => absurd hc (by decide), fun hz => absurd hf (by omega)⟩,
      by decide⟩
  · rw [if_neg hf]
    have hz : (getCounts r).failed = 0 := by omega
    exact ⟨⟨fun hc => absurd hc (by decide), fun hp => absurd hp (by omega)⟩,
      ⟨fun _ => hz, fun _ => rfl⟩, by decide⟩

/-- Witness for C2 at the failure-path input {"summary": {"total": 5,
"passed": 3, "failed": 2}}. -/
theorem c2_status_rule_witness :
    0 ≤ (getCounts ⟨some ⟨some 5, some 3, some 2, none⟩⟩).failed ∧
    (((mainStep SUMMARY_TEMPLATE ⟨some ⟨some 5, some 3, some 2, none⟩⟩).2.status = "failure" ↔
        0 < (getCounts ⟨some ⟨some 5, some 3, some 2, none⟩⟩).failed) ∧
     ((mainStep SUMMARY_TEMPLATE ⟨some ⟨some 5, some 3, some 2, none⟩⟩).2.status = "success" ↔
        (getCounts ⟨some ⟨some 5, some 3, some 2, none⟩⟩).failed = 0) ∧
     (mainStep SUMMARY_TEMPLATE ⟨some ⟨some 5, some 3, some 2, none⟩⟩).2.status ≠ "unknown") :=
  ⟨by decide, c2_status_rule SUMMARY_TEMPLATE ⟨some ⟨some 5, some 3, some 2, none⟩⟩ (by decide)⟩

/-- C3: the four output counts equal the corresponding fields of the raw
report's summary mapping, any field missing in the input defaulting to 0 in
the output. -/
theorem c3_counts_extracted (tmpl : TemplateState) (r : RawReport) :
    (mainStep tmpl r).2.tests.total = ((r.summary.getD emptyRawSummary).total).getD 0 ∧
    (mainStep tmpl r).2.tests.passed = ((r.summary.getD emptyRawSummary).passed).getD 0 ∧
    (mainStep tmpl r).2.tests.failed = ((r.summary.getD emptyRawSummary).failed).getD 0 ∧
    (mainStep tmpl r).2.tests.skipped = ((r.summary.getD emptyRawSummary).skipped).getD 0 :=
  ⟨rfl, rfl, rfl, rfl⟩

/-- C4: within one process invocation (fresh module template), a
success-status output carries the full static catalog verbatim (fixed
cardinality 2, non-empty, independent of the report content beyond the
status branch), and a failure-status output carries exactly the single
generic needs-attention advisory. -/
theorem c4_issue_catalog (r : RawReport) :
    ((mainStep SUMMARY_TEMPLATE r).2.status = "success" →
      (mainStep SUMMARY_TEMPLATE r).2.issues_detected = staticCatalog ∧
      staticCatalog.length = 2 ∧ staticCatalog ≠ []) ∧
    ((mainStep SUMMARY_TEMPLATE r).2.status = "failure" →
      (mainStep SUMMARY_TEMPLATE r).2.issues_detected = [needsAttentionIssue] ∧
      needsAttentionIssue.status = "needs-attention") := by
  rw [mainStep_status, mainStep_out_issues]
  by_cases hf : (getCounts r).failed > 0
  · rw [if_pos hf]
    refine ⟨fun hc => absurd hc (by decide), fun _ => ⟨?_, rfl⟩⟩
    simp [SUMMARY_TEMPLATE, issuesFor, if_pos hf]
  · rw [if_neg hf]
    refine ⟨fun _ => ⟨?_, rfl, by simp [staticCatalog]⟩,
      fun hc => absurd hc (by decide)⟩
    simp [SUMMARY_TEMPLATE, issuesFor, if_neg hf]

/-- Witness for C4: both branches at concrete inputs, the success path at
{"summary": {"total": 10, "passed": 10, "failed": 0, "skipped": 0}} and the
failure path at {"summary": {"total": 5, "passed": 3, "failed": 2}}. -/
theorem c4_issue_catalog_witness :
    ((mainStep SUMMARY_TEMPLATE ⟨some ⟨some 10, some 10, some 0, some 0⟩⟩).2.issues_detected = staticCatalog ∧
      staticCatalog.length = 2 ∧ staticCatalog ≠ []) ∧
    ((mainStep SUMMARY_TEMPLATE ⟨some ⟨some 5, some 3, some 2, none⟩⟩).2.issues_detected = [needsAttentionIssue] ∧
      needsAttentionIssue.status = "needs-attention") :=
  ⟨(c4_issue_catalog ⟨some ⟨some 10, some 10, some 0, some 0⟩⟩).1 (by decide),
   (c4_issue_catalog ⟨some ⟨some 5, some 3, some 2, none⟩⟩).2 (by decide)⟩

/-- C5 counterexample: with the test runner exiting 1 (a test failed),
`generate_report.py` still writes its report yet the process exit code is 1,
not 0, so a successful write does not imply exit code 0. -/
theorem c5_exit_counterexample :
    ¬ ((generate_report_main 1).1 = true → (generate_report_main 1).2 = 0) := by
  intro h
  exact absurd (h rfl) (by decide)

/-- C5 (amended): `test_summary.py` exits 0 on every successful write
regardless of the summarized outcome, while `generate_report.py` and
`run_test.py` propagate the test runner's exit code after their successful
write, so those variants exit non-zero exactly when the test run did. -/
theorem c5_exit_code_by_variant (tmpl : TemplateState) (r : RawReport) (rc : Nat) :
    (test_summary_main tmpl (.ok r)).2.exitCode = 0 ∧
    ((test_summary_main tmpl (.ok r)).2.written).isSome = true ∧
    (generate_report_main rc).1 = true ∧
    (generate_report_main rc).2 = rc ∧
    run_test_exit rc = rc :=
  ⟨rfl, rfl, rfl, rfl, rfl⟩

/-- C6: on an input file that exists but cannot be parsed, the pipeline
aborts before writing: the exit code is non-zero, no output summary is
written, and the template is not modified. -/
theorem c6_malformed_aborts (tmpl : TemplateState) :
    (test_summary_main tmpl .malformed).2.exitCode ≠ 0 ∧
    (test_summary_main tmpl .malformed).2.written = none ∧
    (test_summary_main tmpl .malformed).1 = tmpl :=
  ⟨Nat.one_ne_zero, rfl, rfl⟩

/-- C7 counterexample: two consecutive in-process invocations on the same
input {"summary": {"total": 1, "passed": 1, "failed": 0, "skipped": 0}}
produce different summary values — the second output carries the advisory
catalog twice, so the outputs are not equal. -/
theorem c7_idempotence_counterexample :
    ¬ ((mainStep (mainStep SUMMARY_TEMPLATE ⟨some ⟨some 1, some 1, some 0, some 0⟩⟩).1
          ⟨some ⟨some 1, some 1, some 0, some 0⟩⟩).2 =
       (mainStep SUMMARY_TEMPLATE ⟨some ⟨some 1, some 1, some 0, some 0⟩⟩).2) := by
  decide

/-- C7 (amended): separate process runs (each starting from the fresh
module template) are deterministic and agree, but in-process the summarizer
is not idempotent: for every input, the second of two consecutive
invocations emits an issues_detected list equal to the first output's list
duplicated, so the two outputs always differ, even though counts and status
agree. -/
theorem c7_not_idempotent_in_process (r : RawReport) :
    (mainStep (mainStep SUMMARY_TEMPLATE r).1 r).2.issues_detected =
      (mainStep SUMMARY_TEMPLATE r).2.issues_detected ++
        (mainStep SUMMARY_TEMPLATE r).2.issues_detected ∧
    (mainStep (mainStep SUMMARY_TEMPLATE r).1 r).2.tests =
      (mainStep SUMMARY_TEMPLATE r).2.tests ∧
    (mainStep (mainStep SUMMARY_TEMPLATE r).1 r).2.status =
      (mainStep SUMMARY_TEMPLATE r).2.status ∧
    (mainStep (mainStep SUMMARY_TEMPLATE r).1 r).2 ≠
      (mainStep SUMMARY_TEMPLATE r).2 := by
  refine ⟨?_, rfl, rfl, ?_⟩
  · rw [mainStep_out_issues, mainStep_out_issues, mainStep_state_issues]
    simp [SUMMARY_TEMPLATE]
  · intro h
    have h2 := congrArg SummaryOut.issues_detected h
    rw [mainStep_out_issues, mainStep_out_issues, mainStep_state_issues] at h2
    simp only [SUMMARY_TEMPLATE, List.nil_append] at h2
    have hl := congrArg List.length h2
    rw [List.length_append] at hl
    have h0 : (issuesFor (getCounts r)).length = 0 := by omega
    exact issuesFor_ne_nil (getCounts r) (List.length_eq_zero.mp h0)

/-- C8 counterexample: at the input {"summary": {}} the summary written by
`test_summary.py` has no top-level key "tests_run" (counts are nested under
"tests"), and the summary written by `create_output.py` has neither a
"status" key nor an "issues_detected" key — so no variant's output contains
all the claimed keys. -/
theorem c8_keys_counterexample :
    (summaryToJson (mainStep SUMMARY_TEMPLATE ⟨some emptyRawSummary⟩).2).hasKey "tests_run" = false ∧
    (create_output_summary ⟨some emptyRawSummary⟩).hasKey "status" = false ∧
    (create_output_summary ⟨some emptyRawSummary⟩).hasKey "issues_detected" = false := by
  refine ⟨?_, rfl, rfl⟩
  decide

/-- C8 (amended): for every input, the summary `test_summary.py` writes has
top-level keys project, issues_detected, tests and status; the four integer
counts sit in the nested "tests" object under keys total, passed, failed,
skipped; every element of issues_detected has keys title, cause, fix and
status; and the written status is "success" or "failure".  The
`create_output.py` variant instead writes exactly the flat keys tests_run,
tests_failed, tests_passed, tests_skipped with no status and no
issues_detected. -/
theorem c8_output_shape (tmpl : TemplateState) (r : RawReport) :
    (summaryToJson (mainStep tmpl r).2).keys =
      ["project", "issues_detected", "tests", "status"] ∧
    (countsToJson (mainStep tmpl r).2.tests).keys =
      ["total", "passed", "failed", "skipped"] ∧
    ((mainStep tmpl r).2.issues_detected.map (fun i => (issueToJson i).keys)) =
      List.replicate (mainStep tmpl r).2.issues_detected.length
        ["title", "cause", "fix", "status"] ∧
    ((mainStep tmpl r).2.status = "success" ∨ (mainStep tmpl r).2.status = "failure") ∧
    (create_output_summary r).keys =
      ["tests_run", "tests_failed", "tests_passed", "tests_skipped"] ∧
    (create_output_summary r).hasKey "status" = false ∧
    (create_output_summary r).hasKey "issues_detected" = false := by
  refine ⟨rfl, rfl, ?_, ?_, rfl, rfl, rfl⟩
  · induction (mainStep tmpl r).2.issues_detected with
    | nil => rfl
    | cons a l ih => simp [List.replicate_succ, Json.keys, issueToJson, ih]
  · rw [mainStep_status]
    by_cases hf : (getCounts r).failed > 0
    · exact Or.inr (by rw [if_pos hf])
    · exact Or.inl (by rw [if_neg hf])

/-- C9: all four counts are present in the written output (the nested tests
object has exactly the four count keys) and, provided every count present
in the raw summary is a non-negative integer, all four output counts are
non-negative; no equality with the sum of the categories is asserted. -/
theorem c9_counts_present_nonneg (tmpl : TemplateState) (r : RawReport)
    (h : r.countsNonneg = true) :
    (countsToJson (mainStep tmpl r).2.tests).keys =
      ["total", "passed", "failed", "skipped"] ∧
    0 ≤ (mainStep tmpl r).2.tests.total ∧
    0 ≤ (mainStep tmpl r).2.tests.passed ∧
    0 ≤ (mainStep tmpl r).2.tests.failed ∧
    0 ≤ (mainStep tmpl r).2.tests.skipped := by
  unfold RawReport.countsNonneg at h
  simp only [Bool.and_eq_true] at h
  obtain ⟨⟨⟨h1, h2⟩, h3⟩, h4⟩ := h
  exact ⟨rfl, optGetD_nonneg _ h1, optGetD_nonneg _ h2,
    optGetD_nonneg _ h3, optGetD_nonneg _ h4⟩

/-- Witness for C9 at the input {"summary": {"total": 5, "passed": 3,
"failed": 2}} (skipped absent, defaulted). -/
theorem c9_counts_present_nonneg_witness :
    (⟨some ⟨some 5, some 3, some 2, none⟩⟩ : RawReport).countsNonneg = true ∧
    ((countsToJson (mainStep SUMMARY_TEMPLATE ⟨some ⟨some 5, some 3, some 2, none⟩⟩).2.tests).keys =
       ["total", "passed", "failed", "skipped"] ∧
     0 ≤ (mainStep SUMMARY_TEMPLATE ⟨some ⟨some 5, some 3, some 2, none⟩⟩).2.tests.total ∧
     0 ≤ (mainStep SUMMARY_TEMPLATE ⟨some ⟨some 5, some 3, some 2, none⟩⟩).2.tests.passed ∧
     0 ≤ (mainStep SUMMARY_TEMPLATE ⟨some ⟨some 5, some 3, some 2, none⟩⟩).2.tests.failed ∧
     0 ≤ (mainStep SUMMARY_TEMPLATE ⟨some ⟨some 5, some 3, some 2, none⟩⟩).2.tests.skipped) :=
  ⟨by decide,
   c9_counts_present_nonneg SUMMARY_TEMPLATE ⟨some ⟨some 5, some 3, some 2, none⟩⟩ (by decide)⟩

/-- C10: each successful in-process invocation mutates the shared template
through the shallow copy: afterwards the template's issues_detected equals
its previous value extended by the entries of this invocation and is the
very list in the written output (hence non-empty), the template's tests
counts equal the last input's extracted counts and are the counts written,
and a subsequent invocation appends its advisory entries to that same
list. -/
theorem c10_template_mutation (tmpl : TemplateState) (r r2 : RawReport) :
    (mainStep tmpl r).1.issues_detected =
      tmpl.issues_detected ++ issuesFor (getCounts r) ∧
    (mainStep tmpl r).1.issues_detected = (mainStep tmpl r).2.issues_detected ∧
    (mainStep tmpl r).1.tests = getCounts r ∧
    (mainStep tmpl r).1.tests = (mainStep tmpl r).2.tests ∧
    (mainStep tmpl r).1.issues_detected ≠ [] ∧
    (mainStep (mainStep tmpl r).1 r2).1.issues_detected =
      (mainStep tmpl r).1.issues_detected ++ issuesFor (getCounts r2) := by
  refine ⟨rfl, rfl, rfl, rfl, ?_, rfl⟩
  rw [mainStep_state_issues]
  intro hnil
  rcases List.append_eq_nil.mp hnil with ⟨-, hb⟩
  exact issuesFor_ne_nil (getCounts r) hb
